import Mathlib

/-
Verification of the hello-world-transfer-hook program.

Shallow embedding of the program's instruction handlers:
  - instructions/transfer_hook.rs        : TransferHook::transfer_hook and
    TransferHook::check_is_transferring (the authorization gate);
  - instructions/initialize_whitelist.rs : InitializeWhitelist::initialize_whitelist
    and the `space` expression of the account constraint;
  - instructions/init_extra_account_meta.rs : InitializeExtraAccountMetaList::extra_account_metas.

Conventions of the embedding:
  - A Pubkey (32-byte identifier) is abstracted as a Nat; its byte width is kept
    as the constant pubkeySize where layout sizes matter.
  - Account data is a List Nat of byte values.
  - The two abort branches of transfer_hook.rs are written with panic!, which
    aborts the enclosing transaction and surfaces a failure to the caller; they
    are embedded as the error values named by their messages (NotTransferring,
    NotWhitelisted).  Every failure of the spl-token-2022 decode chain
    (unpack / get_extension, propagated with the question-mark operator) is
    embedded as the single decode error MalformedAccount, following the byte
    layout of token-2022 accounts: 165 base bytes with the state byte at
    offset 108, then one account-type byte (Account = 2), then TLV entries of
    the form [2-byte type LE][2-byte length LE][value], with the
    TransferHookAccount extension of type 15 holding one PodBool byte.
-/

namespace HelloTransferHook

/-- Width in bytes of a Pubkey (std::mem::size_of::<Pubkey>() = 32). -/
def pubkeySize : Nat := 32

/-- Owner / mint identifiers, abstracted. -/
abbrev Pubkey := Nat

/-- The Whitelist state record: `address: Vec<Pubkey>, bump: u8`
    (crate::state::Whitelist, referenced by the instruction files). -/
structure Whitelist where
  address : List Pubkey
  bump : Nat
deriving DecidableEq

/-- Failure modes of the gate: decode failure of the source account
    (MalformedAccount), the not-mid-transfer abort (NotTransferring), and the
    membership abort (NotWhitelisted). -/
inductive HookError where
  | MalformedAccount
  | NotTransferring
  | NotWhitelisted
deriving DecidableEq

/-- Byte length of the token-2022 base account record (PodAccount). -/
def baseLen : Nat := 165

/-- Offset of the account-state byte inside the base record
    (mint 32 + owner 32 + amount 8 + delegate 36). -/
def stateOffset : Nat := 108

/-- Account-type byte for a token account in the extension region. -/
def accountTypeAccount : Nat := 2

/-- ExtensionType::TransferHookAccount discriminant. -/
def extTypeTransferHookAccount : Nat := 15

/-- TLV walk of the extension region looking for the TransferHookAccount
    entry; returns its one value byte.  Each entry is
    [type lo, type hi, length lo, length hi] followed by `length` value bytes;
    a type of 0 (Uninitialized) ends the walk.  Fuel-structured: every step
    consumes at least four bytes, so fuel = list length suffices. -/
def findTransferHookExtAux : Nat → List Nat → Option Nat
  | 0, _ => none
  | fuel + 1, t0 :: t1 :: l0 :: l1 :: rest =>
    let ty := t0 + 256 * t1
    let len := l0 + 256 * l1
    if ty = extTypeTransferHookAccount then
      if len = 1 then rest.head? else none
    else if ty = 0 then none
    else findTransferHookExtAux fuel (rest.drop len)
  | _ + 1, _ => none

/-- TLV lookup of the TransferHookAccount extension value byte. -/
def findTransferHookExt (tlv : List Nat) : Option Nat :=
  findTransferHookExtAux tlv.length tlv

/-- Decode of the transferring flag out of the source token account's packed
    bytes: PodStateWithExtensionsMut::<PodAccount>::unpack followed by
    get_extension_mut::<TransferHookAccount> and the PodBool-to-bool
    conversion (nonzero byte).  Any decode failure is MalformedAccount. -/
def decodeTransferring (data : List Nat) : Except HookError Bool :=
  if data.length < baseLen then .error .MalformedAccount
  else if data.getD stateOffset 0 = 0 then .error .MalformedAccount
  else
    match data.drop baseLen with
    | [] => .error .MalformedAccount
    | acctType :: tlv =>
      if acctType = accountTypeAccount then
        match findTransferHookExt tlv with
        | none => .error .MalformedAccount
        | some b => .ok (b != 0)
      else .error .MalformedAccount

/-- TransferHook::check_is_transferring: decode the flag, abort with
    NotTransferring when it is false. -/
def check_is_transferring (sourceData : List Nat) : Except HookError Unit :=
  match decodeTransferring sourceData with
  | .error e => .error e
  | .ok transferring => if !transferring then .error .NotTransferring else .ok ()

/-- The accounts context of the TransferHook instruction: the source token
    account's packed bytes, the destination token account's packed bytes
    (never read by the handler), the mint, the declared owner, and the
    whitelist record. -/
structure TransferHookAccounts where
  sourceData : List Nat
  destinationData : List Nat
  mint : Pubkey
  owner : Pubkey
  whitelist : Whitelist
deriving DecidableEq

/-- TransferHook::transfer_hook: run check_is_transferring, then abort with
    NotWhitelisted unless the owner is contained in whitelist.address.  The
    amount argument is bound as `_amount` in the source and never read.  The
    second component is the accounts context after the call; the handler only
    ever reads, so each branch passes it through. -/
def transfer_hook (accs : TransferHookAccounts) (_amount : Nat) :
    Except HookError Unit × TransferHookAccounts :=
  match check_is_transferring accs.sourceData with
  | .error e => (.error e, accs)
  | .ok _ =>
    if !(accs.whitelist.address.contains accs.owner) then
      (.error .NotWhitelisted, accs)
    else (.ok (), accs)

/-- InitializeWhitelist::initialize_whitelist: set_inner with an empty address
    vector and bumps.whitelist, the canonical bump found by the framework for
    the seed b"whitelist"; the derivation itself (hashing off-curve) is
    external, so the bump is a parameter here. -/
def initialize_whitelist (bump : Nat) : Except HookError Whitelist :=
  .ok { address := [], bump := bump }

/-- The `space` expression of the whitelist account constraint:
    8 + 4 + std::mem::size_of::<Pubkey>(). -/
def whitelistSpace : Nat := 8 + 4 + pubkeySize

/-- Modelled from the spec: serialized size of the AllowList record under the
    declared layout [8-byte record tag][4-byte length][length x 32-byte owner
    identifier][1-byte derivation bump]; the crate::state::Whitelist source
    file is not among the provided sources, only the layout in spec section 6. -/
def serializedWhitelistSize (numEntries : Nat) : Nat :=
  8 + 4 + numEntries * pubkeySize + 1

/-- Derivation seeds of spl_tlv_account_resolution; only the Literal variant
    is used by this program. -/
inductive Seed where
  | literal (bytes : List Nat)
deriving DecidableEq

/-- Seed::pack for the Literal variant: discriminant byte 1, one length byte,
    then the bytes. -/
def Seed.pack : Seed → List Nat
  | .literal bytes => 1 :: bytes.length :: bytes

/-- Pack a seed sequence into the 32-byte address_config: concatenation of the
    packed seeds, zero-padded to 32 bytes, failing when it does not fit. -/
def packSeedsConfig (seeds : List Seed) : Except Unit (List Nat) :=
  let packed := (seeds.map Seed.pack).flatten
  if packed.length > 32 then .error ()
  else .ok (packed ++ List.replicate (32 - packed.length) 0)

/-- One serialized ExtraAccountMeta: a discriminator byte (1 = PDA of this
    program, derived from seeds), the 32-byte address_config, and the two
    flags. -/
structure ExtraAccountMeta where
  discriminator : Nat
  addressConfig : List Nat
  isSigner : Bool
  isWritable : Bool
deriving DecidableEq

/-- ExtraAccountMeta::new_with_seeds: pack the seeds into the address_config
    of a seed-derived (discriminator 1) entry. -/
def new_with_seeds (seeds : List Seed) (isSigner isWritable : Bool) :
    Except Unit ExtraAccountMeta :=
  match packSeedsConfig seeds with
  | .error e => .error e
  | .ok cfg =>
    .ok { discriminator := 1, addressConfig := cfg,
          isSigner := isSigner, isWritable := isWritable }

/-- The bytes of the literal b"whitelist". -/
def whitelistSeed : List Nat := [119, 104, 105, 116, 101, 108, 105, 115, 116]

/-- InitializeExtraAccountMetaList::extra_account_metas: the one-element list
    holding the entry derived from the single literal seed b"whitelist", with
    is_signer = false and is_writable = false. -/
def extra_account_metas : Except Unit (List ExtraAccountMeta) :=
  match new_with_seeds [Seed.literal whitelistSeed] false false with
  | .error e => .error e
  | .ok m => .ok [m]

/-- The instruction-level view of the resolver: the accounts context carries
    the mint identity, but extra_account_metas takes no argument and the
    result never depends on it. -/
def resolveMetas (_mintIdentity : Pubkey) : Except Unit (List ExtraAccountMeta) :=
  extra_account_metas

/-- decodeTransferring fails only with the decode error MalformedAccount:
    the NotTransferring and NotWhitelisted aborts live outside the decode. -/
theorem decodeTransferring_error_eq (data : List Nat) (e : HookError)
    (h : decodeTransferring data = .error e) : e = HookError.MalformedAccount := by
  unfold decodeTransferring at h
  repeat' split at h
  all_goals simp_all

/-- Sample source-account bytes that decode to transferring = true: a 165-byte
    initialized base (state byte 1 at offset 108), account type 2, then the
    TLV entry [type 15, length 1, value 1]. -/
def sampleTransferringData : List Nat :=
  List.replicate 108 0 ++ [1] ++ List.replicate 56 0 ++ [2, 15, 0, 1, 0, 1]

/-- Same layout with value byte 0: decodes to transferring = false. -/
def sampleNotTransferringData : List Nat :=
  List.replicate 108 0 ++ [1] ++ List.replicate 56 0 ++ [2, 15, 0, 1, 0, 0]

/-- C1: for every owner contained in whitelist.address and every source
    context whose transferring flag decodes to true, transfer_hook returns
    Ok of unit, for any amount and destination context. -/
theorem transfer_hook_whitelisted_ok
    (accs : TransferHookAccounts) (amount : Nat)
    (hmem : accs.whitelist.address.contains accs.owner = true)
    (htr : decodeTransferring accs.sourceData = .ok true) :
    (transfer_hook accs amount).1 = .ok () := by
  have hmem' : accs.owner ∈ accs.whitelist.address := by simpa using hmem
  simp [transfer_hook, check_is_transferring, htr, hmem']

set_option maxRecDepth 20000 in
/-- Witness for C1 at a concrete accounts context. -/
theorem transfer_hook_whitelisted_ok_witness :
    (({ sourceData := sampleTransferringData, destinationData := [], mint := 3,
        owner := 5, whitelist := { address := [5], bump := 254 } } :
        TransferHookAccounts).whitelist.address.contains 5 = true)
    ∧ decodeTransferring sampleTransferringData = .ok true
    ∧ (transfer_hook
        { sourceData := sampleTransferringData, destinationData := [], mint := 3,
          owner := 5, whitelist := { address := [5], bump := 254 } } 10).1 = .ok () :=
  ⟨rfl, rfl, transfer_hook_whitelisted_ok _ 10 rfl rfl⟩

/-- C2: for every owner not contained in whitelist.address, with the
    transferring flag decoding to true, transfer_hook returns the error
    NotWhitelisted, for any amount. -/
theorem transfer_hook_not_whitelisted
    (accs : TransferHookAccounts) (amount : Nat)
    (hmem : accs.whitelist.address.contains accs.owner = false)
    (htr : decodeTransferring accs.sourceData = .ok true) :
    (transfer_hook accs amount).1 = .error .NotWhitelisted := by
  have hmem' : accs.owner ∉ accs.whitelist.address := by simpa using hmem
  simp [transfer_hook, check_is_transferring, htr, hmem']

set_option maxRecDepth 20000 in
/-- Witness for C2 at a concrete accounts context with an absent owner. -/
theorem transfer_hook_not_whitelisted_witness :
    (({ sourceData := sampleTransferringData, destinationData := [], mint := 3,
        owner := 7, whitelist := { address := [5], bump := 254 } } :
        TransferHookAccounts).whitelist.address.contains 7 = false)
    ∧ decodeTransferring sampleTransferringData = .ok true
    ∧ (transfer_hook
        { sourceData := sampleTransferringData, destinationData := [], mint := 3,
          owner := 7, whitelist := { address := [5], bump := 254 } } 10).1
      = .error .NotWhitelisted :=
  ⟨rfl, rfl, transfer_hook_not_whitelisted _ 10 rfl rfl⟩

/-- C3: for every owner, member or not, when the transferring flag decodes to
    false, transfer_hook returns the error NotTransferring and never
    NotWhitelisted: the transferring-check precedes the membership-check. -/
theorem transfer_hook_not_transferring
    (accs : TransferHookAccounts) (amount : Nat)
    (htr : decodeTransferring accs.sourceData = .ok false) :
    (transfer_hook accs amount).1 = .error .NotTransferring ∧
    (transfer_hook accs amount).1 ≠ .error .NotWhitelisted := by
  constructor
  · simp [transfer_hook, check_is_transferring, htr]
  · simp [transfer_hook, check_is_transferring, htr]

set_option maxRecDepth 20000 in
/-- Witness for C3 at a concrete context whose owner IS whitelisted. -/
theorem transfer_hook_not_transferring_witness :
    decodeTransferring sampleNotTransferringData = .ok false
    ∧ ((transfer_hook
        { sourceData := sampleNotTransferringData, destinationData := [], mint := 3,
          owner := 5, whitelist := { address := [5], bump := 254 } } 10).1
        = .error .NotTransferring ∧
       (transfer_hook
        { sourceData := sampleNotTransferringData, destinationData := [], mint := 3,
          owner := 5, whitelist := { address := [5], bump := 254 } } 10).1
        ≠ .error .NotWhitelisted) :=
  ⟨rfl, transfer_hook_not_transferring _ 10 rfl⟩

/-- C4: whenever the decode of the source account's bytes fails, transfer_hook
    fails with MalformedAccount, an error distinct from NotTransferring, and
    the membership-check is not reached: the outcome is the same for every
    whitelist and owner. -/
theorem transfer_hook_malformed
    (accs : TransferHookAccounts) (amount : Nat) (e : HookError)
    (hdec : decodeTransferring accs.sourceData = .error e) :
    (transfer_hook accs amount).1 = .error .MalformedAccount ∧
    HookError.MalformedAccount ≠ HookError.NotTransferring ∧
    ∀ wl o, (transfer_hook { accs with whitelist := wl, owner := o } amount).1
      = .error .MalformedAccount := by
  have he : e = HookError.MalformedAccount := decodeTransferring_error_eq _ _ hdec
  subst he
  refine ⟨?_, by simp, ?_⟩
  · simp [transfer_hook, check_is_transferring, hdec]
  · intro wl o
    simp [transfer_hook, check_is_transferring, hdec]

/-- Witness for C4 at the empty byte list (too short for the base account). -/
theorem transfer_hook_malformed_witness :
    decodeTransferring ([] : List Nat) = .error .MalformedAccount
    ∧ (transfer_hook
        { sourceData := [], destinationData := [], mint := 3,
          owner := 5, whitelist := { address := [5], bump := 254 } } 10).1
      = .error .MalformedAccount :=
  ⟨rfl, (transfer_hook_malformed
    { sourceData := [], destinationData := [], mint := 3,
      owner := 5, whitelist := { address := [5], bump := 254 } } 10
    HookError.MalformedAccount rfl).1⟩

/-- C5: initialize_whitelist produces the record with an empty address vector
    and with the supplied canonical derivation bump (seed b"whitelist") stored
    as its bump, and returns success. -/
theorem initialize_whitelist_empty_record (b : Nat) :
    initialize_whitelist b = .ok { address := [], bump := b } := rfl

/-- C6: the resolver at the instruction level is deterministic and constant in
    the mint identity, and always returns exactly the one seed-derived entry
    built from the literal b"whitelist" with isSigner and isWritable false. -/
theorem resolveMetas_deterministic_single (m1 m2 : Pubkey) :
    resolveMetas m1 = resolveMetas m2 ∧
    resolveMetas m1 =
      .ok [{ discriminator := 1,
             addressConfig := Seed.pack (Seed.literal whitelistSeed)
               ++ List.replicate 21 0,
             isSigner := false, isWritable := false }] :=
  ⟨rfl, rfl⟩

/-- C7 counterexample: the allocated space 8 + 4 + 32 = 44 is NOT the minimal
    size sufficient for the serialized empty record, which occupies
    8 + 4 + 0 + 1 = 13 bytes under the declared layout. -/
theorem whitelistSpace_not_minimal :
    ¬ (whitelistSpace = serializedWhitelistSize 0) := by decide

/-- C7 amended: the allocated space 44 is sufficient (13 ≤ 44) but strictly
    larger than minimal for the empty record, and is insufficient for a record
    holding one 32-byte entry (45 bytes). -/
theorem whitelistSpace_sufficient_not_minimal :
    serializedWhitelistSize 0 ≤ whitelistSpace ∧
    serializedWhitelistSize 0 < whitelistSpace ∧
    whitelistSpace < serializedWhitelistSize 1 := by decide

/-- C8: transfer_hook is independent of the amount argument: two invocations
    differing only in amount have the identical outcome. -/
theorem transfer_hook_amount_independent
    (accs : TransferHookAccounts) (a1 a2 : Nat) :
    transfer_hook accs a1 = transfer_hook accs a2 := rfl

/-- C9: transfer_hook is read-only: whether it succeeds or fails, the accounts
    context afterwards — whitelist record and source bytes included — equals
    the context before. -/
theorem transfer_hook_readonly (accs : TransferHookAccounts) (amount : Nat) :
    (transfer_hook accs amount).2 = accs ∧
    (transfer_hook accs amount).2.whitelist = accs.whitelist ∧
    (transfer_hook accs amount).2.sourceData = accs.sourceData := by
  have h : (transfer_hook accs amount).2 = accs := by
    unfold transfer_hook
    cases check_is_transferring accs.sourceData with
    | error e => rfl
    | ok u =>
      cases h2 : accs.whitelist.address.contains accs.owner <;> simp [h2]
  exact ⟨h, by rw [h], by rw [h]⟩

/-- C10: extra_account_metas never errors: it is the Ok of the one-element
    list holding the b"whitelist" seed entry, so the error branch admitted by
    its signature is unreachable. -/
theorem extra_account_metas_total :
    extra_account_metas =
      .ok [{ discriminator := 1,
             addressConfig := Seed.pack (Seed.literal whitelistSeed)
               ++ List.replicate 21 0,
             isSigner := false, isWritable := false }] := rfl

end HelloTransferHook
